import Mathlib

/-!
# Logobot: verification of the session state machine and compositing pipeline

Shallow embedding of the two bot variants of the `tslm9-git/logobot`
repository:

* `src/new.py` — batch watermark bot (`user_state`, `handle_image_message`,
  `handle_text_message`, `handle_sticker_or_document_as_logo`,
  `try_convert_webp_to_png`, `cleanup_files`);
* `src/bot.py` — single-image bot (`message_handler`, `_download_image`).

Modelling conventions:
* Python float literals (`0.12`, `0.03`) are modelled as exact rationals and
  Python `int()` as floor into `ℕ` (all operands at those sites are
  nonnegative).
* Temp-file paths are opaque natural-number handles; the asset store is the
  list of currently existing files; `os.remove` is removal from that list.
* External codec calls are modelled at their interface: decode outcomes and
  the LANCZOS resize are parameters of the embedding; PIL `paste` is a
  per-pixel function (identity outside the paste box, alpha blend inside);
  `convert("RGB")` drops the alpha band.
* Python string methods `.lower() .strip() .startswith() .endswith()` are
  modelled as list-of-character functions (ASCII case folding, which is what
  the literals involved exercise).
* Transport sends (`reply_text`, `reply_photo`) are modelled as infallible
  append-only logs; reply strings are paraphrases of the literals in the
  source (interpolated counts and non-ASCII decorations omitted).
* The dispatch in the `main` of `new.py` registers `handle_image_message` in
  handler group 0 and `handle_sticker_or_document_as_logo` in group 1 for
  photo/image-document updates, and the sticker handler alone for sticker
  updates; one inbound message therefore runs the matching handler of each
  group in order, which `stepMsg` reproduces.
-/

namespace Logobot

/-- Python `int()` applied to a nonnegative rational: floor, into `ℕ`.
All `int(...)` sites of the program have nonnegative operands. -/
def pyInt (q : ℚ) : ℕ := (⌊q⌋).toNat

namespace NewPy

/-- Code `target_w = max(1, int(base_img.width * 0.12))` (new.py line 265). -/
def targetW (W : ℕ) : ℕ := max 1 (pyInt ((W : ℚ) * (12 / 100)))

/-- Code `new_h = max(1, int(logo_img.height * ratio))` where
`ratio = target_w / float(logo_img.width)` (new.py lines 266–268). -/
def newH (W Lw Lh : ℕ) : ℕ :=
  max 1 (pyInt ((Lh : ℚ) * ((targetW W : ℚ) / (Lw : ℚ))))

/-- Code `padding = int(max(15, base_img.width * 0.03))` (new.py line 272). -/
def padding (W : ℕ) : ℕ := pyInt (max (15 : ℚ) ((W : ℚ) * (3 / 100)))

end NewPy

namespace BotPy

/-- Code `target_w = max(1, int(base_img.width * 0.12))` (bot.py line 170). -/
def targetW (W : ℕ) : ℕ := max 1 (pyInt ((W : ℚ) * (12 / 100)))

/-- Code `new_h = max(1, int(logo_img.height * ratio))` where
`ratio = target_w / logo_img.width` (bot.py lines 171–173). -/
def newH (W Lw Lh : ℕ) : ℕ :=
  max 1 (pyInt ((Lh : ℚ) * ((targetW W : ℚ) / (Lw : ℚ))))

/-- Code `padding = int(max(15, base_img.width * 0.03))` (bot.py line 177). -/
def padding (W : ℕ) : ℕ := pyInt (max (15 : ℚ) ((W : ℚ) * (3 / 100)))

end BotPy

/-! ## Python string primitives (ASCII model) -/

/-- ASCII lower-casing of one character (Python `str.lower` on ASCII data). -/
def lowerChar (c : Char) : Char :=
  if 'A' ≤ c ∧ c ≤ 'Z' then Char.ofNat (c.toNat + 32) else c

/-- Python `str.lower()`. -/
def pyLower (s : String) : String := ⟨s.data.map lowerChar⟩

/-- Python `str.strip()`: drop leading and trailing whitespace. -/
def pyStrip (s : String) : String :=
  ⟨((s.data.dropWhile Char.isWhitespace).reverse.dropWhile Char.isWhitespace).reverse⟩

/-- Python `str.startswith(pre)`. -/
def pyStartsWith (s pre : String) : Bool := pre.data.isPrefixOf s.data

/-- Python `str.endswith(suf)`. -/
def pyEndsWith (s suf : String) : Bool := suf.data.isSuffixOf s.data

/-! ## Document acceptance -/

/-- new.py line 174 (and the `filters.Document.IMAGE` registration, line 356):
a document is handled as an image iff
`(document.mime_type or "").lower().startswith("image")`.  The filename is
consulted only to choose the stored suffix (lines 177–181), not for
acceptance. -/
def NewPy.docIsImage (mime : String) : Bool := pyStartsWith (pyLower mime) "image"

/-- bot.py line 109: the extension allow-list
`(".png", ".jpg", ".jpeg", ".webp", ".bmp")`. -/
def BotPy.imageExts : List String := [".png", ".jpg", ".jpeg", ".webp", ".bmp"]

/-- bot.py lines 107–109 (`_download_image`): a document is accepted iff
`mime.startswith("image") or any(name.endswith(ext) for ext in (...))`,
with `mime` and `name` lower-cased first. -/
def BotPy.docIsImage (mime name : String) : Bool :=
  pyStartsWith (pyLower mime) "image" ||
    BotPy.imageExts.any (fun ext => pyEndsWith (pyLower name) ext)

/-! ## Session state machine (new.py) -/

/-- A temp-file path (`tempfile.mkstemp` result), as an opaque handle. -/
abbrev Handle := ℕ

/-- One entry of `user_state` (new.py line 43):
`{"images": [...], "confirmed": bool, "waiting_logo": bool}`. -/
structure UserState where
  images : List Handle
  confirmed : Bool
  waiting_logo : Bool
deriving DecidableEq, Repr

/-- The record `ensure_user_state` installs (new.py line 109). -/
def initialUserState : UserState := ⟨[], false, false⟩

/-- One inbound update for a fixed user, as the new.py handlers distinguish
them.  `ok` flags whether the download succeeds (the `try` of lines 187–196
resp. the outer `try` of lines 219–318); for a static sticker, `conv` is the
result of `try_convert_webp_to_png` (the produced png handle, if any). -/
inductive Msg where
  | photo (ok : Bool) (h : Handle)
  | docImage (ok : Bool) (h : Handle)
  | docOther
  | stickerStatic (conv : Option Handle)
  | stickerAnimated
  | text (s : String)
  | cancel
deriving DecidableEq

/-- Reply of new.py line 165. -/
def replyAlreadyConfirmed : String :=
  "You already confirmed. Please send the logo now or /cancel to abort."

/-- Reply of new.py line 191 (interpolated count omitted). -/
def replyImageSaved : String :=
  "Image saved. Send more or send confirm when done."

/-- Reply of new.py line 196. -/
def replySaveFailed : String := "Failed to save image. Try again."

/-- Reply of new.py line 210. -/
def replyNotConfirmedYet : String :=
  "You have not confirmed the image batch yet. Send all images, then confirm."

/-- Reply of new.py line 214. -/
def replyWaitForAsk : String :=
  "Please wait for the bot to ask for the logo (send confirm first)."

/-- Reply of new.py line 248. -/
def replyStickerFailed : String :=
  "Could not process sticker as logo (webp conversion failed). Install libwebp and reinstall Pillow, or install dwebp."

/-- Reply of new.py line 251. -/
def replySendALogo : String :=
  "Send an image file, photo, or a static sticker as the logo."

/-- Reply of new.py line 255. -/
def replyProcessing : String :=
  "Processing all images... This may take a moment depending on number/size."

/-- Reply of new.py line 312. -/
def replyDone : String := "Done. All images processed and sent. Batch cleared."

/-- Reply of new.py line 318. -/
def replyUnexpected : String := "Unexpected error while processing logo. Try again."

/-- Reply of new.py line 331. -/
def replyNoImagesYet : String := "You have not sent any images yet. Send images first."

/-- Reply of new.py line 334. -/
def replyConfirmTwice : String := "You already confirmed. Please send the logo now."

/-- Reply of new.py line 339. -/
def replyConfirmed : String :=
  "Confirmed. Now send the logo (image file, photo, or static sticker)."

/-- Reply of new.py line 152. -/
def replyCancelled : String := "Cancelled and cleared your pending images."

/-- Handler `handle_image_message` (new.py lines 156–196), effect on the
state record plus the replies it sends.  `ok`/`h`: download outcome and the
stored temp path of lines 186–190. -/
def handleImageMessage (st : UserState) (ok : Bool) (h : Handle) :
    UserState × List String :=
  if st.waiting_logo then
    (st, [replyAlreadyConfirmed])
  else if ok then
    ({ st with images := st.images ++ [h], confirmed := false }, [replyImageSaved])
  else
    (st, [replySaveFailed])

/-- Handler `handle_sticker_or_document_as_logo` (new.py lines 199–318),
effect on the state record of the user: the guard chain of lines 208–214, the logo
acquisition of lines 219–252, and — when a logo handle was obtained — the
batch run of lines 254–312 ending in the reset
`user_state[uid] = {"images": [], "confirmed": False, "waiting_logo": False}`.
The returned `Bool` records whether the batch ran; the per-image replies and
photo deliveries of the run are modelled in detail by `runBatch` below.
Messages the dispatcher never routes here (`text`, `cancel`, `docOther`)
yield the identity. -/
def handleLogoMessage (st : UserState) (m : Msg) : UserState × List String × Bool :=
  if !st.confirmed then
    (st, [replyNotConfirmedYet], false)
  else if !st.waiting_logo then
    (st, [replyWaitForAsk], false)
  else
    match m with
    | .photo true _ => (initialUserState, [replyProcessing, replyDone], true)
    | .photo false _ => (st, [replyUnexpected], false)
    | .docImage true _ => (initialUserState, [replyProcessing, replyDone], true)
    | .docImage false _ => (st, [replyUnexpected], false)
    | .stickerStatic (some _) => (initialUserState, [replyProcessing, replyDone], true)
    | .stickerStatic none => (st, [replyStickerFailed], false)
    | .stickerAnimated => (st, [replySendALogo], false)
    | _ => (st, [], false)

/-- Handler `handle_text_message` (new.py lines 321–343): watches for `confirm`
(`(text or "").strip().lower()`); `ensure_user_state` only inside the
confirm branch. -/
def handleTextMessage (s : Option UserState) (txt : String) :
    Option UserState × List String :=
  if pyLower (pyStrip txt) = "confirm" then
    let st := s.getD initialUserState
    if st.images = [] then
      (some st, [replyNoImagesYet])
    else if st.confirmed then
      (some st, [replyConfirmTwice])
    else
      (some { st with confirmed := true, waiting_logo := true }, [replyConfirmed])
  else (s, [])

/-- Dispatch of one update per new.py `main` (lines 347–365): a photo or
image document runs `handle_image_message` (group 0) then
`handle_sticker_or_document_as_logo` (group 1); a sticker runs only the
sticker handler; text runs `handle_text_message`; `/cancel` runs
`cancel_cmd` (pop the record); a non-image document matches no handler. -/
def stepMsg (s : Option UserState) (m : Msg) : Option UserState × List String :=
  match m with
  | .photo ok h =>
    let st0 := s.getD initialUserState
    let r1 := handleImageMessage st0 ok h
    let r2 := handleLogoMessage r1.1 m
    (some r2.1, r1.2 ++ r2.2.1)
  | .docImage ok h =>
    let st0 := s.getD initialUserState
    let r1 := handleImageMessage st0 ok h
    let r2 := handleLogoMessage r1.1 m
    (some r2.1, r1.2 ++ r2.2.1)
  | .docOther => (s, [])
  | .stickerStatic _ =>
    let st0 := s.getD initialUserState
    let r := handleLogoMessage st0 m
    (some r.1, r.2.1)
  | .stickerAnimated =>
    let st0 := s.getD initialUserState
    let r := handleLogoMessage st0 m
    (some r.1, r.2.1)
  | .text t => handleTextMessage s t
  | .cancel => (none, [replyCancelled])

/-- Run a sequence of updates for one user. -/
def runMsgs : Option UserState → List Msg → Option UserState
  | s, [] => s
  | s, m :: ms => runMsgs (stepMsg s m).1 ms

/-- The session phase of the spec, read off a `user_state` record: `AwaitingLogo`
iff `waiting_logo`; `Idle` is the absence of a record or an empty default
record; otherwise `CollectingImages`. -/
inductive Phase where
  | Idle
  | CollectingImages
  | AwaitingLogo
deriving DecidableEq, Repr

def phaseOf : Option UserState → Phase
  | none => .Idle
  | some st =>
    if st.waiting_logo then .AwaitingLogo
    else if st.images = [] then .Idle
    else .CollectingImages

/-! ## Webp conversion (new.py `try_convert_webp_to_png`, lines 64–95) -/

/-- Function `try_convert_webp_to_png`: first the Pillow decode of lines 72–77, on
failure the external `dwebp` fallback of lines 80–87; `None` when both fail.
`pillow` and `dwebp` are the outcomes of the two external attempts (the
produced png handle, if the attempt succeeds). -/
def tryConvertWebpToPng (pillow : Option Handle) (dwebp : Option Handle) :
    Option Handle :=
  match pillow with
  | some p => some p
  | none =>
    match dwebp with
    | some q => some q
    | none => none

/-! ## Batch run (new.py lines 254–312) -/

/-- Accumulated result of the per-image loop of lines 258–299. -/
structure LoopResult where
  store : List Handle
  outputs : List Handle
  delivered : List Handle
  skips : ℕ
  fresh : ℕ
deriving DecidableEq, Repr

/-- The per-image loop (new.py lines 258–299): for each stored base path, a
fresh output path is allocated; if base and logo both decode, the composite
is saved (the output file now exists), recorded in `processed_paths`, and
sent to the user; on a decode failure the image is skipped with one
notification reply and the loop continues.  `decOk h` is the outcome of
`Image.open(h).convert("RGBA")`; the logo is re-opened in every iteration,
so one decode outcome function covers both. -/
def batchLoop (decOk : Handle → Bool) (logoOk : Bool) :
    List Handle → List Handle → ℕ → LoopResult
  | [], store, fresh => ⟨store, [], [], 0, fresh⟩
  | base :: rest, store, fresh =>
    if decOk base && logoOk then
      let r := batchLoop decOk logoOk rest (store ++ [fresh]) (fresh + 1)
      ⟨r.store, fresh :: r.outputs, fresh :: r.delivered, r.skips, r.fresh⟩
    else
      let r := batchLoop decOk logoOk rest store (fresh + 1)
      ⟨r.store, r.outputs, r.delivered, r.skips + 1, r.fresh⟩

/-- Result of a whole batch run. -/
structure RunResult where
  session : UserState
  store : List Handle
  outputs : List Handle
  delivered : List Handle
  skips : ℕ
deriving DecidableEq, Repr

/-- The batch run after a logo handle `logoH` was obtained (new.py lines
254–312): the per-image loop, then `cleanup_files(user_state[uid]["images"])`,
`cleanup_files(processed_paths)`, removal of the logo temp file, and the
session reset of line 311. -/
def runBatch (decOk : Handle → Bool) (logoH : Handle) (images : List Handle)
    (store0 : List Handle) (fresh : ℕ) : RunResult :=
  let L := batchLoop decOk (decOk logoH) images store0 fresh
  let s1 := L.store.filter (fun h => !(images.contains h))
  let s2 := s1.filter (fun h => !(L.outputs.contains h))
  let s3 := s2.filter (fun h => !(h == logoH))
  ⟨initialUserState, s3, L.outputs, L.delivered, L.skips⟩

/-! ## Rasters and compositing -/

/-- An RGBA pixel (channel values 0–255). -/
structure Pixel where
  r : ℕ
  g : ℕ
  b : ℕ
  a : ℕ
deriving DecidableEq, Repr

/-- An opaque 3-channel pixel, as produced by `convert("RGB")`. -/
structure RGBPixel where
  r : ℕ
  g : ℕ
  b : ℕ
deriving DecidableEq, Repr

/-- PIL `convert("RGB")` on one pixel: the alpha band is dropped. -/
def Pixel.toRGB (p : Pixel) : RGBPixel := ⟨p.r, p.g, p.b⟩

/-- A decoded RGBA raster. -/
structure Raster where
  width : ℕ
  height : ℕ
  pix : ℕ → ℕ → Pixel

/-- Alpha blend of an overlay pixel over a base pixel, per PIL `paste` with
an RGBA mask (the own alpha band of the overlay):
channel = (over * α + under * (255 - α)) / 255. -/
def blendPx (under over : Pixel) : Pixel :=
  ⟨(over.r * over.a + under.r * (255 - over.a)) / 255,
   (over.g * over.a + under.g * (255 - over.a)) / 255,
   (over.b * over.a + under.b * (255 - over.a)) / 255,
   (over.a * over.a + under.a * (255 - over.a)) / 255⟩

/-- PIL `canvas.paste(overlay, (px, py), overlay)`: within the paste box
(clipped to the canvas) pixels are alpha-blended, outside the box the canvas
is untouched. -/
def pasteMask (canvas overlay : Raster) (px py : ℕ) : Raster :=
  { canvas with
    pix := fun x y =>
      if px ≤ x ∧ x < px + overlay.width ∧ py ≤ y ∧ y < py + overlay.height
          ∧ x < canvas.width ∧ y < canvas.height then
        blendPx (canvas.pix x y) (overlay.pix (x - px) (y - py))
      else canvas.pix x y }

/-- Result of one composite: the flattened RGB content handed to the JPEG
encoder, plus the computed geometry. -/
structure CompositeResult where
  out : ℕ → ℕ → RGBPixel
  outWidth : ℕ
  outHeight : ℕ
  logoW : ℕ
  logoH : ℕ
  pos : ℕ × ℕ

/-- The compositing of new.py lines 261–281 (identical in bot.py lines
152–184): resize the logo to `(target_w, new_h)` with LANCZOS (`resize` is
that external capability), build a fresh RGBA canvas of the base size,
paste the base at `(0, 0)` without a mask, paste the resized logo at
`(padding, padding)` with itself as mask, then `convert("RGB")`.  The final
JPEG serialization (quality 92 resp. 95) is the external encoder and is not
part of the pixel model. -/
def NewPy.composite (resize : Raster → ℕ → ℕ → Raster) (base logo : Raster) :
    CompositeResult :=
  let new_w := NewPy.targetW base.width
  let new_h := NewPy.newH base.width logo.width logo.height
  let logo_resized := resize logo new_w new_h
  let pad := NewPy.padding base.width
  let canvas0 : Raster :=
    { width := base.width, height := base.height,
      pix := fun x y =>
        if x < base.width ∧ y < base.height then base.pix x y else ⟨0, 0, 0, 0⟩ }
  let canvas := pasteMask canvas0 logo_resized pad pad
  { out := fun x y => (canvas.pix x y).toRGB,
    outWidth := canvas.width, outHeight := canvas.height,
    logoW := new_w, logoH := new_h, pos := (pad, pad) }

/-- The contract of `CodecCapability.resize`: the produced raster has the
requested dimensions. -/
def ResizeDims (resize : Raster → ℕ → ℕ → Raster) : Prop :=
  ∀ r w h, (resize r w h).width = w ∧ (resize r w h).height = h

/-- A concrete resize capability (nearest sampling), used to instantiate the
external-capability parameter on concrete inputs. -/
def sampleResize (r : Raster) (w h : ℕ) : Raster :=
  ⟨w, h, fun x y => r.pix (x * r.width / w) (y * r.height / h)⟩

/-! ## Arithmetic bridge: exact-rational floors as natural division -/

/-- Applying `pyInt` to a rational of the shape `a * (b / c)` with natural operands is
natural floor division. -/
lemma pyInt_mul_div (a b c : ℕ) :
    pyInt ((a : ℚ) * ((b : ℚ) / (c : ℚ))) = a * b / c := by
  unfold pyInt
  rw [Int.floor_toNat]
  have h : (a : ℚ) * ((b : ℚ) / (c : ℚ)) = ((a * b : ℕ) : ℚ) / (c : ℕ) := by
    push_cast; ring
  rw [h, Nat.floor_div_nat, Nat.floor_natCast]

lemma pyInt_twelve_pct (W : ℕ) : pyInt ((W : ℚ) * (12 / 100)) = W * 12 / 100 := by
  have h : ((W : ℚ) * (12 / 100)) = (W : ℚ) * (((12 : ℕ) : ℚ) / ((100 : ℕ) : ℚ)) := by
    norm_num
  rw [h, pyInt_mul_div]

lemma pyInt_three_pct (W : ℕ) : pyInt ((W : ℚ) * (3 / 100)) = W * 3 / 100 := by
  have h : ((W : ℚ) * (3 / 100)) = (W : ℚ) * (((3 : ℕ) : ℚ) / ((100 : ℕ) : ℚ)) := by
    norm_num
  rw [h, pyInt_mul_div]

lemma targetW_eq (W : ℕ) : NewPy.targetW W = max 1 (W * 12 / 100) := by
  unfold NewPy.targetW
  rw [pyInt_twelve_pct]

lemma newH_eq (W Lw Lh : ℕ) :
    NewPy.newH W Lw Lh = max 1 (Lh * NewPy.targetW W / Lw) := by
  unfold NewPy.newH
  rw [pyInt_mul_div]

/-- The code computes `int(max(15, W * 0.03))`; over the nonnegative operands
involved this agrees with `max(15, int(W * 0.03))`. -/
lemma padding_eq (W : ℕ) : NewPy.padding W = max 15 (W * 3 / 100) := by
  have hq : ((W : ℚ) * (3 / 100)) = ((W * 3 : ℕ) : ℚ) / ((100 : ℕ) : ℚ) := by
    push_cast; ring
  have hfloor : ⌊((W * 3 : ℕ) : ℚ) / ((100 : ℕ) : ℚ)⌋₊ = W * 3 / 100 := by
    rw [Nat.floor_div_nat, Nat.floor_natCast]
  unfold NewPy.padding pyInt
  rw [Int.floor_toNat, hq]
  rcases le_total (((W * 3 : ℕ) : ℚ) / ((100 : ℕ) : ℚ)) 15 with h | h
  · rw [max_eq_left h]
    have h1 : W * 3 / 100 ≤ 15 := by
      calc W * 3 / 100 = ⌊((W * 3 : ℕ) : ℚ) / ((100 : ℕ) : ℚ)⌋₊ := hfloor.symm
        _ ≤ ⌊(15 : ℚ)⌋₊ := Nat.floor_mono h
        _ = 15 := by norm_num
    rw [max_eq_left h1]
    norm_num
  · rw [max_eq_right h, hfloor]
    have h2 : 15 ≤ W * 3 / 100 := by
      rw [← hfloor]
      exact Nat.le_floor (by exact_mod_cast h)
    rw [max_eq_right h2]

/-- Claim-order form of the padding: `max(15, floor(W * 0.03))`. -/
lemma padding_eq_claim (W : ℕ) :
    NewPy.padding W = max 15 (pyInt ((W : ℚ) * (3 / 100))) := by
  rw [padding_eq, pyInt_three_pct]

/-- C1: for every composite run with decoded base of width `W` and decoded
logo of width `Lw > 0` and height `Lh`, the resized logo width is
`max(1, floor(W*0.12))`, the resized logo height is
`max(1, floor(Lh * (that/Lw)))`, and the logo is pasted at `(p, p)` with
`p = max(15, floor(W*0.03))`; for `W=1000, Lw=500, Lh=200` the resized logo
is 120×48 at position (30, 30). -/
theorem composite_geometry (resize : Raster → ℕ → ℕ → Raster) (base logo : Raster)
    (hl : 0 < logo.width) :
    ((NewPy.composite resize base logo).logoW
        = max 1 (pyInt ((base.width : ℚ) * (12 / 100))) ∧
     (NewPy.composite resize base logo).logoH
        = max 1 (pyInt ((logo.height : ℚ) *
            (((NewPy.composite resize base logo).logoW : ℚ) / (logo.width : ℚ)))) ∧
     (NewPy.composite resize base logo).pos =
        (max 15 (pyInt ((base.width : ℚ) * (3 / 100))),
         max 15 (pyInt ((base.width : ℚ) * (3 / 100))))) ∧
    (base.width = 1000 → logo.width = 500 → logo.height = 200 →
      (NewPy.composite resize base logo).logoW = 120 ∧
      (NewPy.composite resize base logo).logoH = 48 ∧
      (NewPy.composite resize base logo).pos = (30, 30)) := by
  refine ⟨⟨rfl, rfl, ?_⟩, fun hW hLw hLh => ⟨?_, ?_, ?_⟩⟩
  · show (NewPy.padding base.width, NewPy.padding base.width) = _
    rw [padding_eq_claim]
  · show NewPy.targetW base.width = 120
    rw [hW, targetW_eq]
    decide
  · show NewPy.newH base.width logo.width logo.height = 48
    rw [hW, hLw, hLh, newH_eq, targetW_eq]
    decide
  · show (NewPy.padding base.width, NewPy.padding base.width) = (30, 30)
    rw [hW, padding_eq]
    decide

/-- Witness for `composite_geometry` at the concrete instance of the spec. -/
theorem composite_geometry_witness :
    (0 : ℕ) < 500 ∧
    ((NewPy.composite sampleResize ⟨1000, 800, fun _ _ => ⟨0, 0, 0, 255⟩⟩
        ⟨500, 200, fun _ _ => ⟨9, 9, 9, 255⟩⟩).logoW = 120 ∧
     (NewPy.composite sampleResize ⟨1000, 800, fun _ _ => ⟨0, 0, 0, 255⟩⟩
        ⟨500, 200, fun _ _ => ⟨9, 9, 9, 255⟩⟩).logoH = 48 ∧
     (NewPy.composite sampleResize ⟨1000, 800, fun _ _ => ⟨0, 0, 0, 255⟩⟩
        ⟨500, 200, fun _ _ => ⟨9, 9, 9, 255⟩⟩).pos = (30, 30)) :=
  ⟨by decide,
   (composite_geometry sampleResize ⟨1000, 800, fun _ _ => ⟨0, 0, 0, 255⟩⟩
      ⟨500, 200, fun _ _ => ⟨9, 9, 9, 255⟩⟩ (by decide)).2 rfl rfl rfl⟩

/-- C10: the compositing code of bot.py (lines 168–181) and of new.py (lines
264–278) compute the same resized-logo dimensions and the same paste position
`(padding, padding)` for every base width `W` and logo dimensions
`Lw > 0`, `Lh`. -/
theorem compositing_agreement (W Lw Lh : ℕ) (hl : 0 < Lw) :
    BotPy.targetW W = NewPy.targetW W ∧
    BotPy.newH W Lw Lh = NewPy.newH W Lw Lh ∧
    ((BotPy.padding W, BotPy.padding W) : ℕ × ℕ) =
      (NewPy.padding W, NewPy.padding W) :=
  ⟨rfl, rfl, rfl⟩

/-- Witness for `compositing_agreement` at `W=1000, Lw=500, Lh=200`. -/
theorem compositing_agreement_witness :
    (0 : ℕ) < 500 ∧
    (BotPy.targetW 1000 = NewPy.targetW 1000 ∧
     BotPy.newH 1000 500 200 = NewPy.newH 1000 500 200 ∧
     ((BotPy.padding 1000, BotPy.padding 1000) : ℕ × ℕ) =
       (NewPy.padding 1000, NewPy.padding 1000)) :=
  ⟨by decide, compositing_agreement 1000 500 200 (by decide)⟩

/-! ## Session state machine: lemmas and claims -/

lemma confirm_token : pyLower (pyStrip ("confirm")) = "confirm" := by decide

lemma runMsgs_append (s : Option UserState) (l1 l2 : List Msg) :
    runMsgs s (l1 ++ l2) = runMsgs (runMsgs s l1) l2 := by
  induction l1 generalizing s with
  | nil => rfl
  | cons m t ih =>
    simp only [List.cons_append, runMsgs]
    exact ih _

/-- Effect of a run of successfully downloaded photos on a collecting-phase
record: the handles are appended in arrival order. -/
lemma runMsgs_photos (imgs : List Handle) (hs : List Handle) :
    runMsgs (some ⟨imgs, false, false⟩) (hs.map (Msg.photo true)) =
      some ⟨imgs ++ hs, false, false⟩ := by
  induction hs generalizing imgs with
  | nil => simp [runMsgs]
  | cons h t ih =>
    have hstep : (stepMsg (some ⟨imgs, false, false⟩) (Msg.photo true h)).1 =
        some ⟨imgs ++ [h], false, false⟩ := by
      simp [stepMsg, handleImageMessage, handleLogoMessage]
    simp only [List.map_cons, runMsgs, hstep]
    rw [ih]
    simp

/-- C2: after `N` image arrivals followed by the text `confirm`, the session
is in `AwaitingLogo` iff `N ≥ 1`, and the stored base-asset list holds
exactly the `N` handles in arrival order. -/
theorem collect_then_confirm (hs : List Handle) :
    (phaseOf (runMsgs none (hs.map (Msg.photo true) ++ [Msg.text ("confirm")]))
        = Phase.AwaitingLogo ↔ hs ≠ []) ∧
    ((runMsgs none (hs.map (Msg.photo true) ++ [Msg.text ("confirm")])).getD
        initialUserState).images = hs := by
  rw [runMsgs_append]
  cases hs with
  | nil => decide
  | cons h t =>
    have h1 : runMsgs none ((h :: t).map (Msg.photo true)) =
        some ⟨h :: t, false, false⟩ := by
      have hstep : (stepMsg none (Msg.photo true h)).1 = some ⟨[h], false, false⟩ := by
        simp [stepMsg, handleImageMessage, handleLogoMessage, initialUserState]
      simp only [List.map_cons, runMsgs, hstep, runMsgs_photos]
      simp
    rw [h1]
    have h2 : runMsgs (some ⟨h :: t, false, false⟩) [Msg.text ("confirm")] =
        some ⟨h :: t, true, true⟩ := by
      simp only [runMsgs, stepMsg, handleTextMessage]
      rw [if_pos confirm_token]
      simp
    rw [h2]
    refine ⟨?_, rfl⟩
    simp [phaseOf]

/-- The reachability invariant behind C4: whenever a record exists with
`waiting_logo` set, the stored list is non-empty. -/
def SessionInv : Option UserState → Prop
  | none => True
  | some st => st.waiting_logo = true → st.images ≠ []

lemma inv_handleImage (st : UserState) (ok : Bool) (hd : Handle)
    (h : st.waiting_logo = true → st.images ≠ []) :
    ((handleImageMessage st ok hd).1.waiting_logo = true →
      (handleImageMessage st ok hd).1.images ≠ []) := by
  obtain ⟨imgs, c, w⟩ := st
  cases w
  · cases ok <;> simp [handleImageMessage]
  · cases ok <;> simp only [handleImageMessage] <;> simpa using h rfl

lemma inv_handleLogo (st : UserState) (m : Msg)
    (h : st.waiting_logo = true → st.images ≠ []) :
    ((handleLogoMessage st m).1.waiting_logo = true →
      (handleLogoMessage st m).1.images ≠ []) := by
  obtain ⟨imgs, c, w⟩ := st
  cases c
  · simpa [handleLogoMessage] using h
  · cases w
    · simp [handleLogoMessage]
    · cases m with
      | photo ok hd =>
        cases ok <;> simp [handleLogoMessage, initialUserState] <;> simpa using h rfl
      | docImage ok hd =>
        cases ok <;> simp [handleLogoMessage, initialUserState] <;> simpa using h rfl
      | stickerStatic conv =>
        cases conv <;> simp [handleLogoMessage, initialUserState] <;> simpa using h rfl
      | stickerAnimated => simp [handleLogoMessage]; simpa using h rfl
      | text s => simp [handleLogoMessage]; simpa using h rfl
      | docOther => simp [handleLogoMessage]; simpa using h rfl
      | cancel => simp [handleLogoMessage]; simpa using h rfl

lemma sessionInv_step (s : Option UserState) (m : Msg) (h : SessionInv s) :
    SessionInv (stepMsg s m).1 := by
  have h0 : (s.getD initialUserState).waiting_logo = true →
      (s.getD initialUserState).images ≠ [] := by
    cases s with
    | none => simp [initialUserState]
    | some st => exact h
  cases m with
  | photo ok hd =>
    simp only [stepMsg, SessionInv]
    exact inv_handleLogo _ _ (inv_handleImage _ ok hd h0)
  | docImage ok hd =>
    simp only [stepMsg, SessionInv]
    exact inv_handleLogo _ _ (inv_handleImage _ ok hd h0)
  | stickerStatic conv =>
    simp only [stepMsg, SessionInv]
    exact inv_handleLogo _ _ h0
  | stickerAnimated =>
    simp only [stepMsg, SessionInv]
    exact inv_handleLogo _ _ h0
  | docOther => simpa [stepMsg] using h
  | cancel => simp [stepMsg, SessionInv]
  | text t =>
    simp only [stepMsg, handleTextMessage]
    by_cases hc : pyLower (pyStrip t) = "confirm"
    · rw [if_pos hc]
      by_cases he : (s.getD initialUserState).images = []
      · rw [if_pos he]
        simpa [SessionInv] using h0
      · rw [if_neg he]
        cases hcf : (s.getD initialUserState).confirmed
        · simp only [hcf, Bool.false_eq_true, if_false, SessionInv]
          intro _
          simpa using he
        · simp only [hcf, if_true, SessionInv]
          exact h0
    · rw [if_neg hc]
      exact h

lemma sessionInv_run (ms : List Msg) : SessionInv (runMsgs none ms) := by
  suffices h : ∀ s, SessionInv s → SessionInv (runMsgs s ms) by
    exact h none trivial
  induction ms with
  | nil => exact fun s h => h
  | cons m t ih => exact fun s h => ih _ (sessionInv_step s m h)

/-- C4: in every reachable session state (any sequence of image, confirm,
logo, and cancel messages), the `AwaitingLogo` phase implies a non-empty
stored base-asset list. -/
theorem awaiting_logo_nonempty (ms : List Msg)
    (h : phaseOf (runMsgs none ms) = Phase.AwaitingLogo) :
    ((runMsgs none ms).getD initialUserState).images ≠ [] := by
  have hi := sessionInv_run ms
  cases hrun : runMsgs none ms with
  | none => simp [hrun, phaseOf] at h
  | some st =>
    rw [hrun] at h hi
    cases hw : st.waiting_logo
    · exfalso
      by_cases he : st.images = [] <;> simp [phaseOf, hw, he] at h
    · have hne := (show st.waiting_logo = true → st.images ≠ [] from hi) hw
      simpa using hne

/-- Witness for `awaiting_logo_nonempty`: one photo then `confirm`. -/
theorem awaiting_logo_nonempty_witness :
    phaseOf (runMsgs none [Msg.photo true 0, Msg.text ("confirm")])
      = Phase.AwaitingLogo ∧
    ((runMsgs none [Msg.photo true 0, Msg.text ("confirm")]).getD
      initialUserState).images ≠ [] :=
  ⟨by decide, awaiting_logo_nonempty [Msg.photo true 0, Msg.text ("confirm")] (by decide)⟩

/-- C6: with the session in `AwaitingLogo`, an image that is not usable as a
logo produces one informational reply, stores nothing, and leaves the
session unchanged: `handle_image_message` answers only its waiting-logo
reply, and a full dispatch of a message the logo handler rejects (an
animated sticker) answers only the send-a-logo reply. -/
theorem awaiting_logo_nonlogo_image (st : UserState) (hw : st.waiting_logo = true)
    (hc : st.confirmed = true) (ok : Bool) (h : Handle) :
    handleImageMessage st ok h = (st, [replyAlreadyConfirmed]) ∧
    stepMsg (some st) Msg.stickerAnimated = (some st, [replySendALogo]) := by
  constructor
  · simp [handleImageMessage, hw]
  · simp [stepMsg, handleLogoMessage, hw, hc]

/-- Witness for `awaiting_logo_nonlogo_image`. -/
theorem awaiting_logo_nonlogo_image_witness :
    (UserState.mk [5] true true).waiting_logo = true ∧
    (UserState.mk [5] true true).confirmed = true ∧
    (handleImageMessage ⟨[5], true, true⟩ true 7
        = (⟨[5], true, true⟩, [replyAlreadyConfirmed]) ∧
      stepMsg (some ⟨[5], true, true⟩) Msg.stickerAnimated
        = (some ⟨[5], true, true⟩, [replySendALogo])) :=
  ⟨rfl, rfl, awaiting_logo_nonlogo_image ⟨[5], true, true⟩ rfl rfl true 7⟩

/-- C7: the text `confirm` with zero stored images leaves the phase and the
stored list unchanged and produces the rejection reply of new.py line 331. -/
theorem confirm_empty_rejected (s : Option UserState)
    (h : (s.getD initialUserState).images = []) :
    phaseOf (stepMsg s (Msg.text ("confirm"))).1 = phaseOf s ∧
    ((stepMsg s (Msg.text ("confirm"))).1.getD initialUserState).images
      = (s.getD initialUserState).images ∧
    (stepMsg s (Msg.text ("confirm"))).2 = [replyNoImagesYet] := by
  cases s with
  | none => decide
  | some st =>
    obtain ⟨imgs, c, w⟩ := st
    simp only [Option.getD_some] at h
    have h' : imgs = [] := h
    subst h'
    cases c <;> cases w <;> decide

/-- Witness for `confirm_empty_rejected` at the fresh (absent) session. -/
theorem confirm_empty_rejected_witness :
    ((none : Option UserState).getD initialUserState).images = [] ∧
    (phaseOf (stepMsg none (Msg.text ("confirm"))).1 = phaseOf none ∧
     ((stepMsg none (Msg.text ("confirm"))).1.getD initialUserState).images
       = ((none : Option UserState).getD initialUserState).images ∧
     (stepMsg none (Msg.text ("confirm"))).2 = [replyNoImagesYet]) :=
  ⟨by decide, confirm_empty_rejected none (by decide)⟩

/-! ## Batch run: failure isolation and cleanup -/

lemma batchLoop_counts (decOk : Handle → Bool) (logoOk : Bool)
    (images store : List Handle) (fresh : ℕ) :
    (batchLoop decOk logoOk images store fresh).delivered.length =
      (images.filter (fun b => decOk b && logoOk)).length ∧
    (batchLoop decOk logoOk images store fresh).skips =
      (images.filter (fun b => !(decOk b && logoOk))).length := by
  induction images generalizing store fresh with
  | nil => simp [batchLoop]
  | cons b rest ih =>
    cases hd : decOk b <;> cases hlo : logoOk <;> rw [hlo] at ih <;>
      simp [batchLoop, hd, hlo, List.filter_cons,
        (ih (store ++ [fresh]) (fresh + 1)).1, (ih (store ++ [fresh]) (fresh + 1)).2,
        (ih store (fresh + 1)).1, (ih store (fresh + 1)).2]

/-- C3: in a batch run, each base image that fails to decode is skipped with
one notification while every other base image is still processed and
delivered, and afterwards — regardless of the number of failures — every
base asset, every produced output asset, and the logo asset are deleted and
the session is the empty `Idle` record. -/
theorem batch_failures_isolated (decOk : Handle → Bool) (logoH : Handle)
    (images store0 : List Handle) (fresh : ℕ) :
    (runBatch decOk logoH images store0 fresh).delivered.length
        = (images.filter (fun b => decOk b && decOk logoH)).length ∧
    (runBatch decOk logoH images store0 fresh).skips
        = (images.filter (fun b => !(decOk b && decOk logoH))).length ∧
    (∀ h ∈ images, h ∉ (runBatch decOk logoH images store0 fresh).store) ∧
    (∀ h ∈ (runBatch decOk logoH images store0 fresh).outputs,
        h ∉ (runBatch decOk logoH images store0 fresh).store) ∧
    logoH ∉ (runBatch decOk logoH images store0 fresh).store ∧
    (runBatch decOk logoH images store0 fresh).session = initialUserState := by
  obtain ⟨h1, h2⟩ := batchLoop_counts decOk (decOk logoH) images store0 fresh
  refine ⟨h1, h2, ?_, ?_, ?_, rfl⟩
  · intro h hmem hin
    simp only [runBatch, List.mem_filter] at hin
    exact absurd (by simpa using hin.1.1.2) (by simpa using hmem)
  · intro h hmem hin
    simp only [runBatch, List.mem_filter] at hin hmem
    exact absurd (by simpa using hin.1.2) (by simpa using hmem)
  · intro hin
    simp only [runBatch, List.mem_filter] at hin
    exact absurd hin.2 (by simp)

/-- Witness for `batch_failures_isolated`: the three-image batch of the spec with
the middle image corrupted — two deliveries, one skip notification, all
files released, session reset to the empty record. -/
theorem batch_failures_isolated_witness :
    (runBatch (fun h => !(h == 1)) 9 [0, 1, 2] [0, 1, 2, 9] 10).delivered.length = 2 ∧
    (runBatch (fun h => !(h == 1)) 9 [0, 1, 2] [0, 1, 2, 9] 10).skips = 1 ∧
    (runBatch (fun h => !(h == 1)) 9 [0, 1, 2] [0, 1, 2, 9] 10).store = [] ∧
    (runBatch (fun h => !(h == 1)) 9 [0, 1, 2] [0, 1, 2, 9] 10).session
      = initialUserState := by
  have h := batch_failures_isolated (fun h => !(h == 1)) 9 [0, 1, 2] [0, 1, 2, 9] 10
  exact ⟨by rw [h.1]; decide, by rw [h.2.1]; decide, by decide, h.2.2.2.2.2⟩

/-! ## Sticker normalization fallback -/

/-- C9: for a static-sticker logo, the Pillow decode is attempted first; on
its failure the dwebp fallback is attempted and the run proceeds with the
fallback-produced raster when it succeeds; only when both fail does the
handler reply that the environment lacks the codec, without running the
batch and without touching the session. -/
theorem sticker_fallback (st : UserState) (hc : st.confirmed = true)
    (hw : st.waiting_logo = true) (p q : Handle) :
    (∀ d, tryConvertWebpToPng (some p) d = some p) ∧
    tryConvertWebpToPng none (some q) = some q ∧
    (handleLogoMessage st (Msg.stickerStatic (tryConvertWebpToPng none (some q)))).2.2
        = true ∧
    tryConvertWebpToPng none none = none ∧
    handleLogoMessage st (Msg.stickerStatic (tryConvertWebpToPng none none))
        = (st, [replyStickerFailed], false) := by
  refine ⟨fun d => rfl, rfl, ?_, rfl, ?_⟩ <;>
    simp [handleLogoMessage, hc, hw, tryConvertWebpToPng]

/-- Witness for `sticker_fallback`. -/
theorem sticker_fallback_witness :
    (UserState.mk [3] true true).confirmed = true ∧
    (UserState.mk [3] true true).waiting_logo = true ∧
    ((∀ d, tryConvertWebpToPng (some 4) d = some 4) ∧
     tryConvertWebpToPng none (some 6) = some 6 ∧
     (handleLogoMessage ⟨[3], true, true⟩
        (Msg.stickerStatic (tryConvertWebpToPng none (some 6)))).2.2 = true ∧
     tryConvertWebpToPng none none = none ∧
     handleLogoMessage ⟨[3], true, true⟩ (Msg.stickerStatic (tryConvertWebpToPng none none))
        = (⟨[3], true, true⟩, [replyStickerFailed], false)) :=
  ⟨rfl, rfl, sticker_fallback ⟨[3], true, true⟩ rfl rfl 4 6⟩

/-! ## Document acceptance -/

/-- C8 counterexample: the document with MIME type `application/octet-stream`
and filename `logo.png` has a filename extension indicating an image (per the
repository extension list itself) yet new.py does not accept it — acceptance
there is by MIME type alone — while bot.py does accept it. -/
theorem doc_acceptance_counterexample :
    NewPy.docIsImage ("application/octet-stream") = false ∧
    BotPy.imageExts.any (fun ext => pyEndsWith (pyLower ("logo.png")) ext) = true ∧
    BotPy.docIsImage ("application/octet-stream") ("logo.png") = true := by decide

/-- C8 amended: in bot.py a document is accepted as an image iff its declared
MIME type starts with `image` or its lower-cased filename ends with one of
`.png .jpg .jpeg .webp .bmp`; in new.py a document is accepted iff its MIME
type starts with `image` (the filename never contributes to acceptance), so
every document new.py accepts is also accepted by bot.py. -/
theorem doc_acceptance_amended (mime name : String) :
    BotPy.docIsImage mime name =
      (pyStartsWith (pyLower mime) "image" ||
        BotPy.imageExts.any (fun ext => pyEndsWith (pyLower name) ext)) ∧
    NewPy.docIsImage mime = pyStartsWith (pyLower mime) "image" ∧
    (NewPy.docIsImage mime = true → BotPy.docIsImage mime name = true) := by
  refine ⟨rfl, rfl, fun h => ?_⟩
  simp only [NewPy.docIsImage] at h
  simp [BotPy.docIsImage, h]

/-- Witness for `doc_acceptance_amended`. -/
theorem doc_acceptance_amended_witness :
    BotPy.docIsImage ("image/png") ("x.bin") =
      (pyStartsWith (pyLower ("image/png")) "image" ||
        BotPy.imageExts.any (fun ext => pyEndsWith (pyLower ("x.bin")) ext)) ∧
    NewPy.docIsImage ("image/png") = pyStartsWith (pyLower ("image/png")) "image" ∧
    (NewPy.docIsImage ("image/png") = true →
      BotPy.docIsImage ("image/png") ("x.bin") = true) :=
  doc_acceptance_amended ("image/png") ("x.bin")

/-! ## Compositing frame effect -/

/-- C5: every pixel of the flattened composite that lies outside the
rectangle where the resized logo was pasted equals the corresponding pixel
of the decoded base image (the paste touches only its box; `convert("RGB")`
drops the alpha band of both sides alike). -/
theorem composite_outside_rect (resize : Raster → ℕ → ℕ → Raster)
    (hr : ResizeDims resize) (base logo : Raster) (x y : ℕ)
    (hx : x < base.width) (hy : y < base.height)
    (hout : ¬(NewPy.padding base.width ≤ x ∧
        x < NewPy.padding base.width + NewPy.targetW base.width ∧
        NewPy.padding base.width ≤ y ∧
        y < NewPy.padding base.width + NewPy.newH base.width logo.width logo.height)) :
    (NewPy.composite resize base logo).out x y = (base.pix x y).toRGB := by
  obtain ⟨hrw, hrh⟩ := hr logo (NewPy.targetW base.width)
      (NewPy.newH base.width logo.width logo.height)
  simp only [NewPy.composite, pasteMask]
  rw [hrw, hrh]
  rw [if_neg fun hcon => hout ⟨hcon.1, hcon.2.1, hcon.2.2.1, hcon.2.2.2.1⟩,
    if_pos ⟨hx, hy⟩]

/-- Witness for `composite_outside_rect`: a 4×4 base with a 2×2 logo — the
padding (15) pushes the paste box off-canvas, so the pixel at (0, 0) is the
base pixel. -/
theorem composite_outside_rect_witness :
    ResizeDims sampleResize ∧
    (NewPy.composite sampleResize ⟨4, 4, fun x y => ⟨x, y, 7, 255⟩⟩
        ⟨2, 2, fun _ _ => ⟨9, 9, 9, 128⟩⟩).out 0 0
      = (Pixel.mk 0 0 7 255).toRGB :=
  ⟨fun _ _ _ => ⟨rfl, rfl⟩,
   composite_outside_rect sampleResize (fun _ _ _ => ⟨rfl, rfl⟩)
     ⟨4, 4, fun x y => ⟨x, y, 7, 255⟩⟩ ⟨2, 2, fun _ _ => ⟨9, 9, 9, 128⟩⟩ 0 0
     (by decide) (by decide)
     (by
       intro hcon
       have h1 := hcon.1
       rw [padding_eq] at h1
       exact absurd h1 (by decide))⟩

end Logobot
